import Mathlib

/-!
Verification model of the jest module runtime and resolver.

The development shallowly embeds two source files:

* `packages/jest-resolve/src/index.js` — the `Resolver` class
  (`ResolverModel` below, with `getModule`, `getPackage`, `isCoreModule`
  and `resolveModule`).
* the runtime source file — the `Runtime` class (`RtState`/`RtCfg` below,
  with `normalizeID`, `shouldMock`, `requireModule`, `requireMock`,
  `requireModuleOrMock`, `execModule`, `generateMock`,
  `resetModuleRegistry` and the constructor `runtimeCtor`).

Modelling conventions:

* Paths and module names are `String`s; a missing/`undefined` module name
  is the empty string (the source treats `undefined` and `''` alike in
  every use site: both are falsy).
* JavaScript exceptions are `Except JsErr`; since exceptions do not roll
  back mutations, every operation returns its result paired with the
  state reached so far, on the error path too.
* External collaborators the source consumes (the node `resolve` library,
  `require.resolve`, `fs`, the transformer, the sandbox, `jest-mock`) are
  oracle function fields of `ResolverModel` / `RtCfg`; theorems quantify
  over them.
* The runtime's resolver instance is a constructor argument in the
  source, so runtime definitions consume it as oracle fields (`rGetModule`
  etc.) of `RtCfg`.
* A compiled module wrapper is modelled as a list of `Action`s: assigning
  an export, requiring another module through the module's own `require`,
  or raising. `RtState.trace` is ghost instrumentation recording the order
  in which module bodies start executing; no source behaviour reads it.
* Node's `path` functions (posix flavour) are implemented below for the
  path shapes the runtime uses (no trailing slashes).
* Module registries are association lists; an update shadows by
  prepending, and lookups take the first binding, which models in-place
  mutation of a JS object table.
* `Module.children`, `Module.parent` and the per-module `require` closure
  are host objects never observed by the claims and are not carried in
  `ModuleRec`; the process-level `normalizedIDCache` is carried
  per-instance (the spec notes this is observationally equivalent), and
  the `unmockRegExpCache` optimization is dropped the same way.
-/

namespace JestModel

/-! ## Node `path` primitives (posix) -/

def pathSep : String := "/"

def pathDelim : String := ":"

/-- `path.sep + 'node_modules' + path.sep` from the runtime source. -/
def NODE_MODULES : String := "/node_modules/"

/-- Split a character list on a separator character (the semantics of JS
`String.prototype.split` with a one-character separator; structural, so
proofs can evaluate it). -/
def splitChar (c : Char) : List Char → List (List Char)
  | [] => [[]]
  | d :: rest =>
    let r := splitChar c rest
    if d = c then [] :: r
    else
      match r with
      | h :: t => (d :: h) :: t
      | [] => [[d]]

/-- JS `s.split('/')`. -/
def strSplitSlash (s : String) : List String :=
  (splitChar '/' s.data).map String.mk

/-- Join with a separator (`Array.prototype.join` / `path` internals). -/
def joinSep (sep : String) : List String → String
  | [] => ""
  | [x] => x
  | x :: y :: rest => x ++ sep ++ joinSep sep (y :: rest)

/-- First character of a string; JS reads `s[0]` as `undefined` on `""`,
which compares unequal to every character, so any default not used in the
comparisons is faithful. -/
def strFront (s : String) : Char :=
  s.data.headD 'A'

/-- `l` starts with `pre`. -/
def isStartOf : List Char → List Char → Bool
  | [], _ => true
  | _ :: _, [] => false
  | a :: as, b :: bs => a == b && isStartOf as bs

/-- `sub` occurs somewhere inside `l`. -/
def hasInfix (sub : List Char) : List Char → Bool
  | [] => sub.isEmpty
  | c :: rest => isStartOf sub (c :: rest) || hasInfix sub rest

/-- Index of the last occurrence of `c`, if any. -/
def lastIdxOf (c : Char) (l : List Char) : Option Nat :=
  (l.reverse.findIdx? (fun d => d = c)).map (fun j => l.length - 1 - j)

/-- node `path.dirname` for paths without trailing separators. -/
def dirnamePath (p : String) : String :=
  match lastIdxOf '/' p.toList with
  | none => "."
  | some 0 => "/"
  | some i => String.mk (p.toList.take i)

/-- node `path.basename` for paths without trailing separators. -/
def basenamePath (p : String) : String :=
  (strSplitSlash p).getLastD p

/-- node `path.extname` for paths without trailing separators. -/
def extnamePath (p : String) : String :=
  let b := (basenamePath p).toList
  match lastIdxOf '.' b with
  | none => ""
  | some 0 => ""
  | some i => String.mk (b.drop i)

/-- Segment normalization: drops `""` and `"."`, resolves `".."`. -/
def normalizeSegs (acc : List String) : List String → List String
  | [] => acc.reverse
  | "" :: rest => normalizeSegs acc rest
  | "." :: rest => normalizeSegs acc rest
  | ".." :: rest =>
    match acc with
    | [] => normalizeSegs [".."] rest
    | ".." :: _ => normalizeSegs (".." :: acc) rest
    | _ :: t => normalizeSegs t rest
  | s :: rest => normalizeSegs (s :: acc) rest

/-- node `path.normalize` (posix). -/
def normalizePath (p : String) : String :=
  let abs := match p.data with
    | '/' :: _ => true
    | _ => false
  let core := joinSep "/" (normalizeSegs [] (strSplitSlash p))
  if abs then "/" ++ core else if core = "" then "." else core

/-- Drop the common leading segments of two segment lists. -/
def relRemainder : List String → List String → List String × List String
  | a :: as, b :: bs => if a = b then relRemainder as bs else (a :: as, b :: bs)
  | as, bs => (as, bs)

/-- node `path.relative` (posix) on absolute, normalized paths. -/
def relPath (src dst : String) : String :=
  let fs := (strSplitSlash src).filter (fun s => s ≠ "")
  let ts := (strSplitSlash dst).filter (fun s => s ≠ "")
  let (fr, tr) := relRemainder fs ts
  joinSep "/" (fr.map (fun _ => "..") ++ tr)

/-- node `path.join` (posix): concatenate with `/` and normalize. -/
def joinPathList (base : String) (parts : List String) : String :=
  normalizePath (joinSep "/" (base :: parts))

/-- JS `String.prototype.includes`. -/
def strIncludes (s sub : String) : Bool :=
  hasInfix sub.data s.data

/-! ## JS values and module wrapper bodies -/

/-- A JS value, as far as module exports are observed by the claims. -/
inductive JVal where
  | obj : List (String × JVal) → JVal
  | str : String → JVal
  | num : Int → JVal

/-- JS truthiness of a `JVal`. -/
def jvalTruthy : JVal → Bool
  | .obj _ => true
  | .str s => s != ""
  | .num n => n != 0

/-- Set (or append) a field of an object field list. -/
def upsertField (f : String) (v : JVal) : List (String × JVal) → List (String × JVal)
  | [] => [(f, v)]
  | (g, w) :: rest => if g = f then (f, v) :: rest else (g, w) :: upsertField f v rest

/-- JS `exports.f = v` on the exports object. -/
def jvalSet (e : JVal) (f : String) (v : JVal) : JVal :=
  match e with
  | .obj l => .obj (upsertField f v l)
  | x => x

/-- One statement of a compiled module wrapper body: the forms of
interaction with the runtime that the claims observe. -/
inductive Action where
  | setExport (field : String) (v : JVal)
  | requireInto (field : String) (name : String)
  | throwErr (msg : String)

/-- JS exceptions surfaced by the modelled code. -/
inductive JsErr where
  | resolution (message code : String)
  | transformError (msg : String)
  | bodyError (msg : String)
  | metadataNull (modulePath : String)
  | jsonParseError (modulePath : String)
  | registryMiss (modulePath : String)
  | fuelOut
  deriving DecidableEq

/-! ## Resolver (`packages/jest-resolve/src/index.js`) -/

/-- Haste entry types (`H.MODULE` / `H.PACKAGE`). -/
inductive HType where
  | module
  | package
  deriving DecidableEq

/-- `H.GENERIC_PLATFORM` from jest-haste-map. -/
def GENERIC_PLATFORM : String := "g"

/-- `NATIVE_PLATFORM` constant of the resolver source. -/
def NATIVE_PLATFORM : String := "native"

/-- One haste map entry: `{[H.TYPE], [H.PATH]}`. -/
structure HasteModuleInfo where
  htype : HType
  hpath : String
  deriving DecidableEq

/-- The haste index consumed by the resolver: `map[name][platform]` and
`mocks[name]`. -/
structure HasteMapModel where
  map : List (String × List (String × HasteModuleInfo))
  mocks : List (String × String)

/-- The `Resolver` instance: its options, the haste map, and oracles for
the external `resolve` library (`findNodeModuleO` models
`Resolver.findNodeModule`, which already catches failures and yields
`null`; `requireResolveO` models host `require.resolve` with `none` for a
throw; `isCoreO` models `resolve.isCore`). -/
structure ResolverModel where
  moduleMap : HasteMapModel
  defaultPlatform : Option String
  hasCoreModules : Bool
  supportsNativePlatform : Bool
  findNodeModuleO : String → String → Option String
  requireResolveO : String → Option String
  isCoreO : String → Bool

/-- `getModule(name, type)` — platform preference then type check. -/
def ResolverModel.getModule (r : ResolverModel) (name : String)
    (type : HType := .module) : Option String :=
  match List.lookup name r.moduleMap.map with
  | none => none
  | some platMap =>
    let m0 : Option HasteModuleInfo :=
      match r.defaultPlatform with
      | some plat => List.lookup plat platMap
      | none => none
    let m1 :=
      if m0.isNone ∧ (List.lookup NATIVE_PLATFORM platMap).isSome ∧
          r.supportsNativePlatform then
        List.lookup NATIVE_PLATFORM platMap
      else if m0.isNone then List.lookup GENERIC_PLATFORM platMap
      else m0
    match m1 with
    | some m => if m.htype = type then some m.hpath else none
    | none => none

/-- `getPackage(name)`. -/
def ResolverModel.getPackage (r : ResolverModel) (name : String) : Option String :=
  r.getModule name .package

/-- `isCoreModule(moduleName)`. -/
def ResolverModel.isCoreModule (r : ResolverModel) (moduleName : String) : Bool :=
  r.hasCoreModules && r.isCoreO moduleName

/-- Resolution failures carry `message` and `code` like the JS `Error`. -/
structure ResolveError where
  message : String
  code : String
  deriving DecidableEq

/-- `resolveModule(from, moduleName, options)` with the instance's
`_moduleNameCache` threaded explicitly (step numbering as in the
source). -/
def ResolverModel.resolveModule (r : ResolverModel)
    (cache : List (String × String)) (fromPath moduleName : String)
    (skipNodeResolution : Bool := false) :
    Except ResolveError String × List (String × String) :=
  let dirname := dirnamePath fromPath
  let key := dirname ++ pathDelim ++ moduleName
  -- 0. cache hit
  match List.lookup key cache with
  | some hit => (.ok hit, cache)
  | none =>
    -- 1. haste module
    match r.getModule moduleName with
    | some m => (.ok m, (key, m) :: cache)
    | none =>
      -- 2. node resolution
      let nodeRes :=
        if ¬skipNodeResolution then r.findNodeModuleO moduleName dirname else none
      match nodeRes with
      | some m => (.ok m, (key, m) :: cache)
      | none =>
        -- 3. haste packages
        let parts := strSplitSlash moduleName
        let pkgRes : Option String :=
          match r.getPackage (parts.headD "") with
          | some pkg =>
            match r.requireResolveO (joinPathList (dirnamePath pkg) parts.tail) with
            | some m => some m
            | none => none
          | none => none
        match pkgRes with
        | some m => (.ok m, (key, m) :: cache)
        | none =>
          -- 4. error
          let relativePath := relPath dirname fromPath
          (.error
            { message := "Cannot find module '" ++ moduleName ++ "' from '" ++
                (if relativePath = "" then "." else relativePath) ++ "'",
              code := "MODULE_NOT_FOUND" }, cache)

/-! ## Runtime data model -/

/-- A runtime `Module` record (`filename`, `exports`, `paths`; `children`,
`parent` and the `require` closure are host objects the claims never
observe). -/
structure ModuleRec where
  filename : String
  exports : JVal
  paths : List String := []

/-- The per-instance mutable state of a `Runtime`. -/
structure RtState where
  moduleRegistry : List (String × ModuleRec)
  mockRegistry : List (String × JVal)
  mockFactories : List (String × JVal)
  explicitShouldMock : List (String × Bool)
  transitiveShouldMock : List (String × Bool)
  shouldMockModuleCache : List (String × Bool)
  shouldUnmockTransitiveDepsCache : List (String × Bool)
  mockMetaDataCache : List (String × Option JVal)
  virtualMocks : List (String × Bool)
  normalizedIDCache : List (String × String)
  currentlyExecutingModulePath : String
  isCurrentlyExecutingManualMock : Option String
  shouldAutoMock : Bool
  unmockList : Option (List String)
  envGlobal : Bool
  trace : List String

/-- Immutable configuration plus the oracles for every external
collaborator the runtime consumes: the resolver instance (`r*` fields),
`RegExp.test` on the compiled unmock list (`reTest`), the transformer
plus sandbox (`bodies`: the compiled wrapper of a file, or the error the
transform/script run raised), `fs`+`JSON.parse` for `.json` files, the
host `require` (core and `.node` modules), `fs.existsSync`, and the
`jest-mock` metadata tooling. A mock factory is modelled by the value it
returns (`mockFactories` table in the state). -/
structure RtCfg where
  rGetModule : String → Option String
  rGetMockModule : String → String → Option String
  rIsCoreModule : String → Bool
  rResolveModule : String → String → Except JsErr String
  rGetModulePaths : String → List String
  reTest : List String → String → Bool
  bodies : String → Except JsErr (List Action)
  jsonParse : String → Option JVal
  hostRequire : String → JVal
  fsExistsSync : String → Bool
  mockGetMetadata : JVal → Option JVal
  mockGenerateFromMetadata : Option JVal → JVal
  setupFiles : List String
  automock : Bool
  unmockedModulePathPatterns : Option (List String)
  envGlobalPresent : Bool

/-- `_resolveModule(from, to)`: `to ? resolveModule(from, to) : from`. -/
def resolveModuleR (cfg : RtCfg) (fromPath toName : String) : Except JsErr String :=
  if toName = "" then .ok fromPath else cfg.rResolveModule fromPath toName

/-- `_getVirtualMockPath(from, moduleName)`. For `""` the source reads
`moduleName[0]` as `undefined`, failing both comparisons, and returns
`moduleName`; `strFront` on `""` likewise fails both. -/
def getVirtualMockPath (fromPath moduleName : String) : String :=
  if strFront moduleName ≠ '.' ∧ strFront moduleName ≠ '/' then moduleName
  else normalizePath (dirnamePath fromPath ++ "/" ++ moduleName)

/-- `_normalizeID(from, moduleName)`; may throw out of the embedded
`_resolveModule` call. -/
def normalizeID (cfg : RtCfg) (st : RtState) (fromPath moduleName : String) :
    Except JsErr String × RtState :=
  let key := fromPath ++ pathDelim ++ moduleName
  match List.lookup key st.normalizedIDCache with
  | some id => (.ok id, st)
  | none =>
    if cfg.rIsCoreModule moduleName then
      let id := "node" ++ pathDelim ++ moduleName ++ pathDelim
      (.ok id, { st with normalizedIDCache := (key, id) :: st.normalizedIDCache })
    else
      let step1 : Except JsErr (Option String) :=
        if (cfg.rGetModule moduleName).isNone ∧
            (cfg.rGetMockModule fromPath moduleName).isNone then
          let viaVirtual : Option String :=
            if moduleName ≠ "" then
              let vmp := getVirtualMockPath fromPath moduleName
              if (List.lookup vmp st.virtualMocks).isSome then some vmp else none
            else none
          match viaVirtual with
          | some vp => .ok (some vp)
          | none => (resolveModuleR cfg fromPath moduleName).map some
        else .ok none
      match step1 with
      | .error e => (.error e, st)
      | .ok abs0 =>
        let absolutePath : Option String :=
          match abs0 with
          | some a => some a
          | none => cfg.rGetModule moduleName
        let mockPath : Option String := cfg.rGetMockModule fromPath moduleName
        let id := "user" ++ pathDelim ++ absolutePath.getD "" ++ pathDelim ++
          mockPath.getD ""
        (.ok id, { st with normalizedIDCache := (key, id) :: st.normalizedIDCache })

/-- `this._unmockList && this._unmockList.test(p)`. -/
def unmockTest (cfg : RtCfg) (st : RtState) (p : String) : Bool :=
  match st.unmockList with
  | some pats => cfg.reTest pats p
  | none => false

/-- `_shouldMock(from, moduleName)`. -/
def shouldMock (cfg : RtCfg) (st : RtState) (fromPath moduleName : String) :
    Except JsErr Bool × RtState :=
  let mockPath := getVirtualMockPath fromPath moduleName
  if (List.lookup mockPath st.virtualMocks).isSome then (.ok true, st)
  else
    match normalizeID cfg st fromPath moduleName with
    | (.error e, st1) => (.error e, st1)
    | (.ok moduleID, st1) =>
      let key := fromPath ++ pathDelim ++ moduleID
      match List.lookup moduleID st1.explicitShouldMock with
      | some b => (.ok b, st1)
      | none =>
        if ¬st1.shouldAutoMock ∨ cfg.rIsCoreModule moduleName ∨
            List.lookup key st1.shouldUnmockTransitiveDepsCache = some true then
          (.ok false, st1)
        else
          match List.lookup moduleID st1.shouldMockModuleCache with
          | some b => (.ok b, st1)
          | none =>
            let manualMock := cfg.rGetMockModule fromPath moduleName
            match resolveModuleR cfg fromPath moduleName with
            | .error e =>
              if manualMock.isSome then
                (.ok true, { st1 with
                  shouldMockModuleCache := (moduleID, true) :: st1.shouldMockModuleCache })
              else (.error e, st1)
            | .ok modulePath =>
              if unmockTest cfg st1 modulePath then
                (.ok false, { st1 with
                  shouldMockModuleCache := (moduleID, false) :: st1.shouldMockModuleCache })
              else
                match normalizeID cfg st1 fromPath "" with
                | (.error e, st2) => (.error e, st2)
                | (.ok currentModuleID, st2) =>
                  if List.lookup currentModuleID st2.transitiveShouldMock = some false ∨
                      (strIncludes fromPath NODE_MODULES ∧
                        strIncludes modulePath NODE_MODULES ∧
                        (unmockTest cfg st2 fromPath ∨
                          List.lookup currentModuleID st2.explicitShouldMock = some false)) then
                    (.ok false, { st2 with
                      transitiveShouldMock :=
                        (moduleID, false) :: st2.transitiveShouldMock,
                      shouldUnmockTransitiveDepsCache :=
                        (key, true) :: st2.shouldUnmockTransitiveDepsCache })
                  else
                    (.ok true, { st2 with
                      shouldMockModuleCache := (moduleID, true) :: st2.shouldMockModuleCache })

/-- Read the registry entry for `p` and return its `exports` (the final
line of `requireModule`; a missing entry is the JS `TypeError` on reading
`.exports` of `undefined`). -/
def finalRead (st : RtState) (p : String) : Except JsErr JVal × RtState :=
  match List.lookup p st.moduleRegistry with
  | some r => (.ok r.exports, st)
  | none => (.error (.registryMiss p), st)

/-- Mirror a module record mutation into the registry when the record is
registered there (JS aliasing: the registered record and the executing
`localModule` are one object). -/
def writeThrough (st : RtState) (p : String) (rec : ModuleRec) : RtState :=
  match List.lookup p st.moduleRegistry with
  | some _ => { st with moduleRegistry := (p, rec) :: st.moduleRegistry }
  | none => st

/-- Mirror an exports mutation into the registry when registered. -/
def writeThroughExports (st : RtState) (p : String) (e : JVal) : RtState :=
  match List.lookup p st.moduleRegistry with
  | some r =>
    { st with moduleRegistry := (p, { r with exports := e }) :: st.moduleRegistry }
  | none => st

mutual

/-- `requireModule(from, moduleName, options)`. `moduleName = ""` is the
absent argument; `isInternal` is `options.isInternalModule`. -/
def requireModule (cfg : RtCfg) :
    Nat → RtState → String → String → Bool → Except JsErr JVal × RtState
  | 0, st, _, _, _ => (.error .fuelOut, st)
  | Nat.succ n, st, fromPath, moduleName, isInternal =>
    match normalizeID cfg st fromPath moduleName with
    | (.error e, st1) => (.error e, st1)
    | (.ok moduleID, st1) =>
      let moduleResource :=
        if moduleName ≠ "" then cfg.rGetModule moduleName else none
      let manualMock :=
        if moduleName ≠ "" then cfg.rGetMockModule fromPath moduleName else none
      let subst : Option String :=
        if ¬isInternal ∧ moduleResource.isNone ∧ manualMock.isSome ∧
            manualMock ≠ st1.isCurrentlyExecutingManualMock ∧
            List.lookup moduleID st1.explicitShouldMock ≠ some false then
          manualMock
        else none
      if moduleName ≠ "" ∧ cfg.rIsCoreModule moduleName then
        (.ok (cfg.hostRequire moduleName), st1)
      else
        match (match subst with
               | some mp => .ok mp
               | none => resolveModuleR cfg fromPath moduleName :
               Except JsErr String) with
        | .error e => (.error e, st1)
        | .ok modulePath =>
          match List.lookup modulePath st1.moduleRegistry with
          | some _ => finalRead st1 modulePath
          | none =>
            let rec0 : ModuleRec := { filename := modulePath, exports := .obj [] }
            let st2 := { st1 with
              moduleRegistry := (modulePath, rec0) :: st1.moduleRegistry }
            if extnamePath modulePath = ".json" then
              match cfg.jsonParse modulePath with
              | some v => finalRead (writeThroughExports st2 modulePath v) modulePath
              | none => (.error (.jsonParseError modulePath), st2)
            else if extnamePath modulePath = ".node" then
              finalRead
                (writeThroughExports st2 modulePath (cfg.hostRequire modulePath))
                modulePath
            else
              match execModule cfg n st2 rec0 isInternal with
              | (.error e, st3) => (.error e, st3)
              | (.ok _, st3) => finalRead st3 modulePath

/-- `_execModule(localModule, options)`: pointer save/set, record
pre-fill, transform, wrapper invocation, pointer restore on normal
return (the source has no try/finally: an error propagates without
restoring). -/
def execModule (cfg : RtCfg) :
    Nat → RtState → ModuleRec → Bool → Except JsErr ModuleRec × RtState
  | 0, st, _, _ => (.error .fuelOut, st)
  | Nat.succ n, st, rec, isInternal =>
    if ¬st.envGlobal then (.ok rec, st)
    else
      let filename := rec.filename
      let lastExecutingModulePath := st.currentlyExecutingModulePath
      let origCurrExecutingManualMock := st.isCurrentlyExecutingManualMock
      let st1 := { st with
        currentlyExecutingModulePath := filename,
        isCurrentlyExecutingManualMock := some filename }
      let dirname := dirnamePath filename
      let rec1 := { rec with paths := cfg.rGetModulePaths dirname }
      let st2 := writeThrough st1 filename rec1
      match cfg.bodies filename with
      | .error e => (.error e, st2)
      | .ok acts =>
        let st3 := { st2 with trace := st2.trace ++ [filename] }
        match execActions cfg n st3 filename isInternal rec1.exports acts with
        | (.error e, st4) => (.error e, st4)
        | (.ok finalExports, st4) =>
          (.ok { rec1 with exports := finalExports },
            { st4 with
              currentlyExecutingModulePath := lastExecutingModulePath,
              isCurrentlyExecutingManualMock := origCurrExecutingManualMock })

/-- Run the wrapper body statements of the module at `filename`. The
carried `exports` value aliases the registry entry when one exists
(mirrored by `writeThroughExports`). -/
def execActions (cfg : RtCfg) :
    Nat → RtState → String → Bool → JVal → List Action →
    Except JsErr JVal × RtState
  | 0, st, _, _, _, _ => (.error .fuelOut, st)
  | Nat.succ _, st, _, _, e, [] => (.ok e, st)
  | Nat.succ n, st, filename, isInternal, e, act :: rest =>
    match act with
    | .setExport f v =>
      let e1 := jvalSet e f v
      execActions cfg n (writeThroughExports st filename e1) filename isInternal e1 rest
    | .requireInto f name =>
      match (if isInternal then requireModule cfg n st filename name true
             else requireModuleOrMock cfg n st filename name) with
      | (.error err, st1) => (.error err, st1)
      | (.ok v, st1) =>
        let e1 := jvalSet e f v
        execActions cfg n (writeThroughExports st1 filename e1) filename isInternal e1 rest
    | .throwErr m => (.error (.bodyError m), st)

/-- `requireModuleOrMock(from, moduleName)`. -/
def requireModuleOrMock (cfg : RtCfg) :
    Nat → RtState → String → String → Except JsErr JVal × RtState
  | 0, st, _, _ => (.error .fuelOut, st)
  | Nat.succ n, st, fromPath, moduleName =>
    match shouldMock cfg st fromPath moduleName with
    | (.error e, st1) => (.error e, st1)
    | (.ok true, st1) => requireMock cfg n st1 fromPath moduleName
    | (.ok false, st1) => requireModule cfg n st1 fromPath moduleName false

/-- `requireMock(from, moduleName)`. -/
def requireMock (cfg : RtCfg) :
    Nat → RtState → String → String → Except JsErr JVal × RtState
  | 0, st, _, _ => (.error .fuelOut, st)
  | Nat.succ n, st, fromPath, moduleName =>
    match normalizeID cfg st fromPath moduleName with
    | (.error e, st1) => (.error e, st1)
    | (.ok moduleID, st1) =>
      let core : RtState → Except JsErr JVal × RtState := fun stc =>
        match List.lookup moduleID stc.mockFactories with
        | some factVal =>
          (.ok factVal,
            { stc with mockRegistry := (moduleID, factVal) :: stc.mockRegistry })
        | none =>
          match (match cfg.rGetMockModule fromPath moduleName with
                 | some mm => (resolveModuleR cfg fromPath mm).map
                     (fun p => (true, p))
                 | none =>
                   (resolveModuleR cfg fromPath moduleName).map (fun p =>
                     let potentialManualMock :=
                       joinPathList (dirnamePath p) ["__mocks__", basenamePath p]
                     if cfg.fsExistsSync potentialManualMock then
                       (true, potentialManualMock)
                     else (false, p)) :
                 Except JsErr (Bool × String)) with
          | .error e => (.error e, stc)
          | .ok (isManual, modulePath) =>
            if isManual then
              let localModule : ModuleRec :=
                { filename := modulePath, exports := .obj [] }
              match execModule cfg n stc localModule false with
              | (.error e, st2) => (.error e, st2)
              | (.ok rec2, st2) =>
                (.ok rec2.exports,
                  { st2 with
                    mockRegistry := (moduleID, rec2.exports) :: st2.mockRegistry })
            else
              match generateMock cfg n stc fromPath moduleName with
              | (.error e, st2) => (.error e, st2)
              | (.ok v, st2) =>
                (.ok v, { st2 with mockRegistry := (moduleID, v) :: st2.mockRegistry })
      match List.lookup moduleID st1.mockRegistry with
      | some v => if jvalTruthy v then (.ok v, st1) else core st1
      | none => core st1

/-- `_generateMock(from, moduleName)`: isolated require between a registry
snapshot and its restore (no try/finally in the source). -/
def generateMock (cfg : RtCfg) :
    Nat → RtState → String → String → Except JsErr JVal × RtState
  | 0, st, _, _ => (.error .fuelOut, st)
  | Nat.succ n, st, fromPath, moduleName =>
    match resolveModuleR cfg fromPath moduleName with
    | .error e => (.error e, st)
    | .ok modulePath =>
      match List.lookup modulePath st.mockMetaDataCache with
      | some cached => (.ok (cfg.mockGenerateFromMetadata cached), st)
      | none =>
        let sentinel := cfg.mockGetMetadata (.obj [])
        let st1 := { st with
          mockMetaDataCache := (modulePath, sentinel) :: st.mockMetaDataCache }
        let origMockRegistry := st1.mockRegistry
        let origModuleRegistry := st1.moduleRegistry
        let st2 := { st1 with mockRegistry := [], moduleRegistry := [] }
        match requireModule cfg n st2 fromPath moduleName false with
        | (.error e, st3) => (.error e, st3)
        | (.ok moduleExports, st3) =>
          let st4 := { st3 with
            mockRegistry := origMockRegistry,
            moduleRegistry := origModuleRegistry }
          match cfg.mockGetMetadata moduleExports with
          | none => (.error (.metadataNull modulePath), st4)
          | some mockMetadata =>
            let st5 := { st4 with
              mockMetaDataCache := (modulePath, some mockMetadata) :: st4.mockMetaDataCache }
            (.ok (cfg.mockGenerateFromMetadata (some mockMetadata)), st5)

end

/-- `resetModuleRegistry()`. The walk over the sandbox global that calls
`mockClear` on mock functions, and `mockClearTimers`, act only on the
sandbox host and touch no runtime table. -/
def resetModuleRegistry (st : RtState) : RtState :=
  { st with mockRegistry := [], moduleRegistry := [] }

/-- The state the constructor body has built just before the
`config.setupFiles` processing (source lines up to the `_unmockList`
setup). -/
def initialState (cfg : RtCfg) : RtState :=
  { moduleRegistry := []
    mockRegistry := []
    mockFactories := []
    explicitShouldMock := []
    transitiveShouldMock := []
    shouldMockModuleCache := []
    shouldUnmockTransitiveDepsCache := []
    mockMetaDataCache := []
    virtualMocks := []
    normalizedIDCache := []
    currentlyExecutingModulePath := ""
    isCurrentlyExecutingManualMock := none
    shouldAutoMock := cfg.automock
    unmockList := cfg.unmockedModulePathPatterns
    envGlobal := cfg.envGlobalPresent
    trace := [] }

/-- The constructor's `unmockPath` callback applied to one setup file. -/
def unmockSetupPath (cfg : RtCfg) (st : RtState) (filePath : String) :
    Except JsErr RtState :=
  if filePath ≠ "" ∧ strIncludes filePath NODE_MODULES then
    match normalizeID cfg st filePath "" with
    | (.error e, _) => .error e
    | (.ok moduleID, st1) =>
      .ok { st1 with
        transitiveShouldMock := (moduleID, false) :: st1.transitiveShouldMock }
  else .ok st

/-- `config.setupFiles.forEach(unmockPath)`. -/
def foldUnmock (cfg : RtCfg) (st : RtState) : List String → Except JsErr RtState
  | [] => .ok st
  | f :: rest =>
    match unmockSetupPath cfg st f with
    | .error e => .error e
    | .ok st1 => foldUnmock cfg st1 rest

/-- The constructor's setup-file require loop. -/
def requireSetupFiles (cfg : RtCfg) (fuel : Nat) (st : RtState) :
    List String → Except JsErr RtState
  | [] => .ok st
  | f :: rest =>
    match requireModule cfg fuel st f "" false with
    | (.error e, _) => .error e
    | (.ok _, st1) => requireSetupFiles cfg fuel st1 rest

/-- The `Runtime` constructor: initial tables, the `unmockPath` pass over
`config.setupFiles`, an initial `resetModuleRegistry`, then
`requireModule` on each setup file in order. -/
def runtimeCtor (cfg : RtCfg) (fuel : Nat) : Except JsErr RtState :=
  match foldUnmock cfg (initialState cfg) cfg.setupFiles with
  | .error e => .error e
  | .ok st1 => requireSetupFiles cfg fuel (resetModuleRegistry st1) cfg.setupFiles

/-! ## Concrete fixtures used by witnesses -/

/-- A resolver over an empty world: no haste entries, no node modules. -/
def emptyResolver : ResolverModel :=
  { moduleMap := { map := [], mocks := [] }
    defaultPlatform := none
    hasCoreModules := true
    supportsNativePlatform := false
    findNodeModuleO := fun _ _ => none
    requireResolveO := fun _ => none
    isCoreO := fun _ => false }

/-- A resolver whose haste map carries `foo` as a generic-platform MODULE
at `/h/foo.js`, while node resolution would also find a module named
`foo`. -/
def hasteFooResolver : ResolverModel :=
  { moduleMap :=
      { map := [("foo", [(GENERIC_PLATFORM, ⟨.module, "/h/foo.js"⟩)])]
        mocks := [] }
    defaultPlatform := none
    hasCoreModules := true
    supportsNativePlatform := false
    findNodeModuleO := fun _ _ => some "/proj/node_modules/foo/index.js"
    requireResolveO := fun _ => none
    isCoreO := fun _ => false }

/-- A runtime configuration whose resolver maps every name `n` to
`/r/<n>`, with trivial oracles. -/
def genMockCfg : RtCfg :=
  { rGetModule := fun _ => none
    rGetMockModule := fun _ _ => none
    rIsCoreModule := fun _ => false
    rResolveModule := fun _ n => .ok ("/r/" ++ n)
    rGetModulePaths := fun _ => []
    reTest := fun _ _ => false
    bodies := fun _ => .ok []
    jsonParse := fun _ => none
    hostRequire := fun _ => .obj []
    fsExistsSync := fun _ => false
    mockGetMetadata := fun mv => some mv
    mockGenerateFromMetadata := fun _ => .num 7
    setupFiles := []
    automock := true
    unmockedModulePathPatterns := none
    envGlobalPresent := true }

/-- A runtime state with one registered module and a cached automock
metadata entry for `/r/m`. -/
def genMockState : RtState :=
  { moduleRegistry := [("/r/m", { filename := "/r/m", exports := .num 3 })]
    mockRegistry := [("user:/other:", .num 9)]
    mockFactories := []
    explicitShouldMock := []
    transitiveShouldMock := []
    shouldMockModuleCache := []
    shouldUnmockTransitiveDepsCache := []
    mockMetaDataCache := [("/r/m", some (.obj []))]
    virtualMocks := []
    normalizedIDCache := []
    currentlyExecutingModulePath := ""
    isCurrentlyExecutingManualMock := none
    shouldAutoMock := true
    unmockList := none
    envGlobal := true
    trace := [] }

/-- `genMockCfg` with a module body that raises. -/
def throwBodyCfg : RtCfg :=
  { genMockCfg with bodies := fun _ => .ok [.throwErr "boom"] }

/-- A fresh module record for `/proj/a.js`. -/
def recA : ModuleRec := { filename := "/proj/a.js", exports := .obj [] }

/-- A state in which some other module is currently executing. -/
def pointerState : RtState :=
  { initialState genMockCfg with
    currentlyExecutingModulePath := "/prev.js"
    isCurrentlyExecutingManualMock := some "/prevmock.js" }

/-- `genMockCfg` whose resolver treats `fs` as a core module. -/
def coreFsCfg : RtCfg :=
  { genMockCfg with rIsCoreModule := fun n => n == "fs" }

/-- A state in which `fs` has been registered as a virtual mock. -/
def virtualFsState : RtState :=
  { initialState coreFsCfg with virtualMocks := [("fs", true)] }

/-- `genMockCfg` with automock off, an identity resolver, and a module
body that assigns `a`, circularly requires `/proj/a.js` into `c`, then
assigns `b`. -/
def circCfg : RtCfg :=
  { genMockCfg with
    automock := false
    rResolveModule := fun _ n => .ok n
    bodies := fun _ => .ok
      [.setExport "a" (.num 1), .requireInto "c" "/proj/a.js",
       .setExport "b" (.num 2)] }

/-- The normalized id `_normalizeID` computes for a setup file `f`
required with no module name (empty absolute-path slot resolving to `f`
itself, empty mock slot). -/
def idOfSetup (f : String) : String :=
  "user" ++ pathDelim ++ f ++ pathDelim

/-- A configuration with two setup files, one inside `node_modules`. -/
def setupCfg : RtCfg :=
  { genMockCfg with
    setupFiles := ["/p/node_modules/s1.js", "/p/s2.js"] }

/-! ## Helper lemmas -/

theorem lookup_cons_self {α : Type} (a : String) (v : α) (l : List (String × α)) :
    List.lookup a ((a, v) :: l) = some v := by
  simp [List.lookup]

theorem lookup_cons_ne {α : Type} {a b : String} (v : α) (l : List (String × α))
    (h : a ≠ b) : List.lookup a ((b, v) :: l) = List.lookup a l := by
  simp [List.lookup, beq_eq_false_iff_ne.mpr h]

/-- `_normalizeID` touches only the normalized-id cache: the state it
returns is the input state, possibly with one cache binding prepended. -/
theorem normalizeID_state_cases (cfg : RtCfg) (st : RtState)
    (fromPath mn : String) :
    (normalizeID cfg st fromPath mn).2 = st ∨
    ∃ kv, (normalizeID cfg st fromPath mn).2 =
      { st with normalizedIDCache := kv :: st.normalizedIDCache } := by
  unfold normalizeID
  simp only []
  repeat' split
  all_goals first
    | exact Or.inl rfl
    | exact Or.inr ⟨_, rfl⟩

/-- When the embedded `_resolveModule` succeeds, `_normalizeID` cannot
throw. -/
theorem normalizeID_no_throw (cfg : RtCfg) (st : RtState)
    (fromPath mn m : String)
    (hres : resolveModuleR cfg fromPath mn = .ok m) :
    ∀ e, (normalizeID cfg st fromPath mn).1 ≠ .error e := by
  intro e
  unfold normalizeID
  simp only []
  cases hl : List.lookup (fromPath ++ pathDelim ++ mn) st.normalizedIDCache with
  | some id => simp [hl]
  | none =>
    by_cases hcore : cfg.rIsCoreModule mn = true
    · simp [hl, hcore]
    · by_cases hcond : cfg.rGetModule mn = none ∧
          cfg.rGetMockModule fromPath mn = none
      · by_cases hmn : mn = ""
        · subst hmn
          simp [hl, hcore, hcond, resolveModuleR, Except.map]
        · cases hv : List.lookup (getVirtualMockPath fromPath mn)
              st.virtualMocks with
          | some b => simp [hl, hcore, hcond, hmn, hv]
          | none => simp [hl, hcore, hcond, hmn, hv, hres, Except.map]
      · simp [hl, hcore, hcond]

/-- Inversion of a successful `requireModule` when no manual-mock
substitution can apply and the name is not a core module: the resolver
produced some path `m`, and the returned `exports` is exactly what the
final registry read at `m` yields. -/
theorem requireModule_ok_inv
    (cfg : RtCfg) (fuel : Nat) (st : RtState) (fromPath moduleName : String)
    (isInternal : Bool) (v : JVal) (st1 : RtState)
    (hMM : (if moduleName ≠ "" then cfg.rGetMockModule fromPath moduleName
            else none) = none)
    (hNC : ¬(moduleName ≠ "" ∧ cfg.rIsCoreModule moduleName = true))
    (h : requireModule cfg fuel st fromPath moduleName isInternal = (.ok v, st1)) :
    ∃ m rec, resolveModuleR cfg fromPath moduleName = .ok m ∧
      List.lookup m st1.moduleRegistry = some rec ∧ rec.exports = v := by
  cases fuel with
  | zero => simp [requireModule] at h
  | succ n =>
    rw [requireModule] at h
    split at h
    · simp at h
    · simp only [] at h
      rw [hMM] at h
      simp only [ite_self] at h
      rw [if_neg hNC] at h
      split at h
      · simp at h
      next m heqres =>
        refine ⟨m, ?_⟩
        split at h
        next rec heqlook =>
          unfold finalRead at h
          rw [heqlook] at h
          injection h with h1 h2
          subst h2
          injection h1 with h1
          exact ⟨rec, heqres, heqlook, h1⟩
        next heqlook =>
          split at h
          · split at h
            next jv heqjson =>
              unfold writeThroughExports finalRead at h
              simp only [lookup_cons_self] at h
              injection h with h1 h2
              subst h2
              injection h1 with h1
              exact ⟨{ filename := m, exports := jv, paths := [] }, heqres,
                by simp [lookup_cons_self], h1⟩
            next heqjson => simp at h
          · split at h
            · unfold writeThroughExports finalRead at h
              simp only [lookup_cons_self] at h
              injection h with h1 h2
              subst h2
              injection h1 with h1
              exact ⟨{ filename := m, exports := cfg.hostRequire m, paths := [] },
                heqres, by simp [lookup_cons_self], h1⟩
            · split at h
              · simp at h
              next recX st3 heqexec =>
                unfold finalRead at h
                split at h
                next rec3 heqlook3 =>
                  injection h with h1 h2
                  subst h2
                  injection h1 with h1
                  exact ⟨rec3, heqres, heqlook3, h1⟩
                next => simp at h

theorem setupKey_inj {a b : String}
    (h : a ++ pathDelim ++ "" = b ++ pathDelim ++ "") : a = b := by
  have h2 := congrArg String.data h
  simp only [String.data_append] at h2
  have h3 : a.data ++ pathDelim.data = b.data ++ pathDelim.data := by
    simpa using h2
  exact String.ext (List.append_cancel_right h3)

theorem lookup_false_pres {k k2 : String} {T : List (String × Bool)}
    (h : List.lookup k T = some false) :
    List.lookup k ((k2, false) :: T) = some false := by
  by_cases hk : k = k2
  · subst hk
    simp [List.lookup]
  · rw [lookup_cons_ne _ _ hk]
    exact h

/-- `_normalizeID(f)` (no module name) on a state whose cache entry for
`f`, if present, is the canonical setup id: it yields that id, caching it
if absent. -/
theorem normalizeID_setup (cfg : RtCfg) (st : RtState) (f : String)
    (hCore0 : cfg.rIsCoreModule "" = false)
    (hGM0 : cfg.rGetModule "" = none)
    (hMM0 : cfg.rGetMockModule f "" = none)
    (hc : List.lookup (f ++ pathDelim ++ "") st.normalizedIDCache = none ∨
      List.lookup (f ++ pathDelim ++ "") st.normalizedIDCache =
        some (idOfSetup f)) :
    normalizeID cfg st f "" = (.ok (idOfSetup f), st) ∨
    normalizeID cfg st f "" =
      (.ok (idOfSetup f),
        { st with normalizedIDCache :=
            (f ++ pathDelim ++ "", idOfSetup f) :: st.normalizedIDCache }) := by
  rcases hc with hc | hc
  · have hc2 : List.lookup (f ++ pathDelim) st.normalizedIDCache = none := by
      simpa using hc
    right
    simp [normalizeID, hc2, hCore0, hGM0, hMM0, resolveModuleR, idOfSetup,
      Except.map]
  · have hc2 : List.lookup (f ++ pathDelim) st.normalizedIDCache =
        some (idOfSetup f) := by simpa using hc
    left
    simp [normalizeID, hc2, idOfSetup]

/-- Requiring a fresh setup file with an empty body: the module registry
gains the record keyed by `f` (pre-registration then the `paths`
write-through), the trace gains `f`, and everything else — in particular
`transitiveShouldMock` — is unchanged except possibly one new
normalized-id cache entry. -/
theorem requireModule_setup_step
    (cfg : RtCfg) (k : Nat) (st : RtState) (f : String)
    (hCore0 : cfg.rIsCoreModule "" = false)
    (hGM0 : cfg.rGetModule "" = none)
    (hMM0 : cfg.rGetMockModule f "" = none)
    (hBody : cfg.bodies f = .ok [])
    (hJson : extnamePath f ≠ ".json") (hNodeExt : extnamePath f ≠ ".node")
    (hReg : List.lookup f st.moduleRegistry = none)
    (hEnv : st.envGlobal = true)
    (hc : List.lookup (f ++ pathDelim ++ "") st.normalizedIDCache = none ∨
      List.lookup (f ++ pathDelim ++ "") st.normalizedIDCache =
        some (idOfSetup f)) :
    ∃ c2,
      requireModule cfg (k + 3) st f "" false =
        (.ok (.obj []),
          { st with
            moduleRegistry :=
              (f, { filename := f, exports := .obj [],
                    paths := cfg.rGetModulePaths (dirnamePath f) }) ::
              (f, { filename := f, exports := .obj [], paths := [] }) ::
              st.moduleRegistry,
            normalizedIDCache := c2,
            trace := st.trace ++ [f] }) ∧
      (c2 = st.normalizedIDCache ∨
        c2 = (f ++ pathDelim ++ "", idOfSetup f) :: st.normalizedIDCache) := by
  have h3 : k + 3 = Nat.succ (Nat.succ (Nat.succ k)) := rfl
  rw [h3]
  rcases hc with hc | hc
  · have hc2 : List.lookup (f ++ pathDelim) st.normalizedIDCache = none := by
      simpa using hc
    refine ⟨(f ++ pathDelim ++ "", idOfSetup f) :: st.normalizedIDCache,
      ?_, Or.inr rfl⟩
    simp [requireModule, execModule, execActions, normalizeID, resolveModuleR,
      finalRead, writeThrough, Except.map, idOfSetup, List.lookup,
      hc2, hCore0, hGM0, hMM0, hBody, hJson, hNodeExt, hReg, hEnv]
  · have hc2 : List.lookup (f ++ pathDelim) st.normalizedIDCache =
        some (idOfSetup f) := by simpa using hc
    refine ⟨st.normalizedIDCache, ?_, Or.inl rfl⟩
    simp [requireModule, execModule, execActions, normalizeID, resolveModuleR,
      finalRead, writeThrough, Except.map, idOfSetup, List.lookup,
      hc2, hCore0, hGM0, hMM0, hBody, hJson, hNodeExt, hReg, hEnv]

/-- The constructor's setup-file loop: with fresh, distinct files and
empty bodies, it succeeds, executes the files in list order (trace), and
leaves `transitiveShouldMock` exactly as it was. -/
theorem requireSetupFiles_ok
    (cfg : RtCfg) (k : Nat)
    (hCore0 : cfg.rIsCoreModule "" = false)
    (hGM0 : cfg.rGetModule "" = none) :
    ∀ (l : List String) (st : RtState),
    (∀ f ∈ l, cfg.rGetMockModule f "" = none ∧ cfg.bodies f = .ok [] ∧
      extnamePath f ≠ ".json" ∧ extnamePath f ≠ ".node" ∧
      List.lookup f st.moduleRegistry = none) →
    (∀ g : String,
      List.lookup (g ++ pathDelim ++ "") st.normalizedIDCache = none ∨
      List.lookup (g ++ pathDelim ++ "") st.normalizedIDCache =
        some (idOfSetup g)) →
    l.Nodup → st.envGlobal = true →
    ∃ st2, requireSetupFiles cfg (k + 3) st l = .ok st2 ∧
      st2.trace = st.trace ++ l ∧
      st2.transitiveShouldMock = st.transitiveShouldMock := by
  intro l
  induction l with
  | nil =>
    intro st _ _ _ _
    exact ⟨st, rfl, by simp, rfl⟩
  | cons f rest ih =>
    intro st hfs hcache hnd henv
    obtain ⟨hMM0, hBody, hJson, hNodeExt, hReg⟩ := hfs f (by simp)
    obtain ⟨c2, heq, hc2⟩ := requireModule_setup_step cfg k st f hCore0 hGM0
      hMM0 hBody hJson hNodeExt hReg henv (hcache f)
    have hfne : f ∉ rest := (List.nodup_cons.mp hnd).1
    obtain ⟨st2, h2, htr2, htm2⟩ := ih
      { st with
        moduleRegistry :=
          (f, { filename := f, exports := .obj [],
                paths := cfg.rGetModulePaths (dirnamePath f) }) ::
          (f, { filename := f, exports := .obj [], paths := [] }) ::
          st.moduleRegistry,
        normalizedIDCache := c2,
        trace := st.trace ++ [f] }
      (by
        intro g hg
        obtain ⟨m1, m2, m3, m4, m5⟩ := hfs g (by simp [hg])
        have hgf : g ≠ f := fun hgf => hfne (hgf ▸ hg)
        refine ⟨m1, m2, m3, m4, ?_⟩
        simp only []
        rw [lookup_cons_ne _ _ hgf, lookup_cons_ne _ _ hgf]
        exact m5)
      (by
        intro g
        rcases hc2 with hc2 | hc2
        · rw [hc2]
          exact hcache g
        · simp only [hc2]
          by_cases hg : g ++ pathDelim ++ "" = f ++ pathDelim ++ ""
          · right
            rw [hg, lookup_cons_self, setupKey_inj hg]
          · rw [lookup_cons_ne _ _ hg]
            exact hcache g)
      (List.nodup_cons.mp hnd).2
      henv
    refine ⟨st2, ?_, ?_, ?_⟩
    · rw [requireSetupFiles, heq]
      exact h2
    · rw [htr2]
      simp
    · rw [htm2]

/-- The constructor's `unmockPath` pass over the setup files: it touches
only `transitiveShouldMock` (adding `false` marks) and the normalized-id
cache, and after it every setup file under `node_modules` carries a
`false` mark. -/
theorem foldUnmock_ok
    (cfg : RtCfg)
    (hCore0 : cfg.rIsCoreModule "" = false)
    (hGM0 : cfg.rGetModule "" = none) :
    ∀ (l : List String) (st : RtState),
    (∀ f ∈ l, cfg.rGetMockModule f "" = none) →
    (∀ g : String,
      List.lookup (g ++ pathDelim ++ "") st.normalizedIDCache = none ∨
      List.lookup (g ++ pathDelim ++ "") st.normalizedIDCache =
        some (idOfSetup g)) →
    ∃ st1, foldUnmock cfg st l = .ok st1 ∧
      st1.moduleRegistry = st.moduleRegistry ∧
      st1.trace = st.trace ∧
      st1.envGlobal = st.envGlobal ∧
      (∀ g : String,
        List.lookup (g ++ pathDelim ++ "") st1.normalizedIDCache = none ∨
        List.lookup (g ++ pathDelim ++ "") st1.normalizedIDCache =
          some (idOfSetup g)) ∧
      (∀ g : String,
        List.lookup g st.transitiveShouldMock = some false →
        List.lookup g st1.transitiveShouldMock = some false) ∧
      (∀ f ∈ l, f ≠ "" ∧ strIncludes f NODE_MODULES = true →
        List.lookup (idOfSetup f) st1.transitiveShouldMock = some false) := by
  intro l
  induction l with
  | nil =>
    intro st _ hcache
    exact ⟨st, rfl, rfl, rfl, rfl, hcache, fun g h => h, by simp⟩
  | cons f rest ih =>
    intro st hmm hcache
    by_cases hf : f ≠ "" ∧ strIncludes f NODE_MODULES = true
    · obtain hN | hN := normalizeID_setup cfg st f hCore0 hGM0
        (hmm f (by simp)) (hcache f)
      all_goals
        rename normalizeID cfg st f "" = _ => hN
      · -- cache hit: state unchanged before the transitive mark
        obtain ⟨st1, h1, hr1, ht1, he1, hc1, hp1, hm1⟩ := ih
          { st with transitiveShouldMock :=
              (idOfSetup f, false) :: st.transitiveShouldMock }
          (fun g hg => hmm g (by simp [hg]))
          hcache
        refine ⟨st1, ?_, hr1, ht1, he1, hc1, ?_, ?_⟩
        · rw [foldUnmock]
          rw [unmockSetupPath, if_pos hf, hN]
          exact h1
        · intro g hg
          exact hp1 g (lookup_false_pres hg)
        · intro g hg hcond
          rcases List.mem_cons.mp hg with hgf | hgr
          · subst hgf
            exact hp1 _ (lookup_cons_self _ _ _)
          · exact hm1 g hgr hcond
      · -- cache miss: one cache entry added before the transitive mark
        obtain ⟨st1, h1, hr1, ht1, he1, hc1, hp1, hm1⟩ := ih
          { st with
            normalizedIDCache :=
              (f ++ pathDelim ++ "", idOfSetup f) :: st.normalizedIDCache,
            transitiveShouldMock :=
              (idOfSetup f, false) :: st.transitiveShouldMock }
          (fun g hg => hmm g (by simp [hg]))
          (by
            intro g
            simp only []
            by_cases hg : g ++ pathDelim ++ "" = f ++ pathDelim ++ ""
            · right
              rw [hg, lookup_cons_self, setupKey_inj hg]
            · rw [lookup_cons_ne _ _ hg]
              exact hcache g)
        refine ⟨st1, ?_, hr1, ht1, he1, hc1, ?_, ?_⟩
        · rw [foldUnmock]
          rw [unmockSetupPath, if_pos hf, hN]
          exact h1
        · intro g hg
          exact hp1 g (lookup_false_pres hg)
        · intro g hg hcond
          rcases List.mem_cons.mp hg with hgf | hgr
          · subst hgf
            exact hp1 _ (lookup_cons_self _ _ _)
          · exact hm1 g hgr hcond
    · obtain ⟨st1, h1, hr1, ht1, he1, hc1, hp1, hm1⟩ := ih st
        (fun g hg => hmm g (by simp [hg])) hcache
      refine ⟨st1, ?_, hr1, ht1, he1, hc1, hp1, ?_⟩
      · rw [foldUnmock]
        rw [unmockSetupPath, if_neg hf]
        exact h1
      · intro g hg hcond
        rcases List.mem_cons.mp hg with hgf | hgr
        · subst hgf
          exact absurd hcond hf
        · exact hm1 g hgr hcond

/-! ## Claim theorems -/

/-- C7: `resetModuleRegistry` replaces the mock registry and the module
registry with empty tables, while the mock-factory table, the
explicit-should-mock flags, the virtual-mock set and the compiled unmock
regex are unchanged by it. -/
theorem resetModuleRegistry_frame (st : RtState) :
    (resetModuleRegistry st).mockRegistry = [] ∧
    (resetModuleRegistry st).moduleRegistry = [] ∧
    (resetModuleRegistry st).mockFactories = st.mockFactories ∧
    (resetModuleRegistry st).explicitShouldMock = st.explicitShouldMock ∧
    (resetModuleRegistry st).virtualMocks = st.virtualMocks ∧
    (resetModuleRegistry st).unmockList = st.unmockList :=
  ⟨rfl, rfl, rfl, rfl, rfl, rfl⟩

/-- C2: when the haste map carries `name` as a MODULE entry (after
platform preference, i.e. `getModule name = some p`), `resolveModule`
returns that haste path, for every node-resolution oracle and every
haste-package table — those steps are never reached. The cache entry for
the key, when present, is the haste path itself (the only value the code
ever stores for such a name). -/
theorem haste_module_wins_resolution
    (r : ResolverModel) (cache : List (String × String))
    (fromPath name p : String) (skip : Bool)
    (hHaste : r.getModule name = some p)
    (hCache : List.lookup (dirnamePath fromPath ++ pathDelim ++ name) cache = none ∨
      List.lookup (dirnamePath fromPath ++ pathDelim ++ name) cache = some p) :
    (r.resolveModule cache fromPath name skip).1 = .ok p := by
  unfold ResolverModel.resolveModule
  rcases hCache with h | h <;> simp [h, hHaste]

/-- C2 witness. -/
theorem haste_module_wins_resolution_witness :
    hasteFooResolver.getModule "foo" = some "/h/foo.js" ∧
    (hasteFooResolver.resolveModule [] "/proj/a.js" "foo" false).1 =
      .ok "/h/foo.js" :=
  ⟨rfl, haste_module_wins_resolution hasteFooResolver [] "/proj/a.js" "foo"
    "/h/foo.js" false rfl (Or.inl rfl)⟩

/-- C8: when every resolution step fails, `resolveModule` raises an error
whose `code` is `MODULE_NOT_FOUND` and whose message is exactly
`Cannot find module '<name>' from '<from relative to dirname(from)>'`,
with `.` substituted when the relative path is empty. -/
theorem resolveModule_failure_error
    (r : ResolverModel) (cache : List (String × String)) (fromPath name : String)
    (hCache : List.lookup (dirnamePath fromPath ++ pathDelim ++ name) cache = none)
    (hHaste : r.getModule name = none)
    (hNode : r.findNodeModuleO name (dirnamePath fromPath) = none)
    (hPkg : ∀ pkg, r.getPackage ((strSplitSlash name).headD "") = some pkg →
      r.requireResolveO (joinPathList (dirnamePath pkg) (strSplitSlash name).tail) =
        none) :
    (r.resolveModule cache fromPath name).1 =
      .error
        { message := "Cannot find module '" ++ name ++ "' from '" ++
            (if relPath (dirnamePath fromPath) fromPath = "" then "."
             else relPath (dirnamePath fromPath) fromPath) ++ "'",
          code := "MODULE_NOT_FOUND" } := by
  unfold ResolverModel.resolveModule
  cases hp : r.getPackage ((strSplitSlash name).headD "") with
  | none =>
    rw [List.headD_eq_head?] at hp
    simp [hCache, hHaste, hNode, hp]
  | some pkg =>
    have hrr := hPkg pkg hp
    rw [List.headD_eq_head?] at hp
    simp [hCache, hHaste, hNode, hp, hrr]

/-- C8 witness: `resolveModule("/proj/src/x.js", "nope")` on an empty
world raises `Cannot find module 'nope' from 'x.js'`. -/
theorem resolveModule_failure_error_witness :
    (emptyResolver.resolveModule [] "/proj/src/x.js" "nope").1 =
      .error { message := "Cannot find module 'nope' from 'x.js'",
               code := "MODULE_NOT_FOUND" } := by
  have h := resolveModule_failure_error emptyResolver [] "/proj/src/x.js" "nope"
    rfl rfl rfl
    (fun pkg h => by
      simp [emptyResolver, ResolverModel.getPackage, ResolverModel.getModule] at h)
  exact h.trans (congrArg Except.error (by decide))

/-- C5: whenever `_generateMock(from, name)` completes (returns a mock),
the module registry and the mock registry are exactly what they were
before the call; the introspection require ran against temporary empty
registries that were discarded. -/
theorem generateMock_registry_frame
    (cfg : RtCfg) (fuel : Nat) (st : RtState) (fromPath name : String)
    (v : JVal) (st' : RtState)
    (h : generateMock cfg fuel st fromPath name = (.ok v, st')) :
    st'.moduleRegistry = st.moduleRegistry ∧ st'.mockRegistry = st.mockRegistry := by
  cases fuel with
  | zero => simp [generateMock] at h
  | succ n =>
    rw [generateMock] at h
    split at h
    · simp at h
    · split at h
      · injection h with h1 h2
        subst h2
        exact ⟨rfl, rfl⟩
      · simp only [] at h
        split at h
        · simp at h
        · split at h
          · simp at h
          · injection h with h1 h2
            subst h2
            exact ⟨rfl, rfl⟩

/-- C5 witness: generating a mock for a module whose metadata is already
cached leaves both registries untouched. -/
theorem generateMock_registry_frame_witness :
    (generateMock genMockCfg 1 genMockState "/a.js" "m").2.moduleRegistry =
      genMockState.moduleRegistry ∧
    (generateMock genMockCfg 1 genMockState "/a.js" "m").2.mockRegistry =
      genMockState.mockRegistry := by
  have e : generateMock genMockCfg 1 genMockState "/a.js" "m" =
      (.ok (.num 7), genMockState) := rfl
  have h := generateMock_registry_frame genMockCfg 1 genMockState "/a.js" "m"
    (.num 7) genMockState e
  rw [e]
  exact h

/-- C4 counterexample: with a wrapper body that raises, `_execModule`
exits with the error while both "currently executing" pointers are still
set to the failing module — the previous values (`""` and `none`) are not
restored, refuting restoration on every exit. -/
theorem execModule_error_exit_counterexample :
    (execModule throwBodyCfg 2 (initialState throwBodyCfg) recA false).1 =
      .error (.bodyError "boom") ∧
    (execModule throwBodyCfg 2 (initialState throwBodyCfg) recA
        false).2.currentlyExecutingModulePath = "/proj/a.js" ∧
    (initialState throwBodyCfg).currentlyExecutingModulePath = "" ∧
    (execModule throwBodyCfg 2 (initialState throwBodyCfg) recA
        false).2.isCurrentlyExecutingManualMock = some "/proj/a.js" ∧
    (initialState throwBodyCfg).isCurrentlyExecutingManualMock = none :=
  ⟨rfl, rfl, rfl, rfl, rfl⟩

/-- C4 (amended): `_execModule` saves the runtime's
currently-executing-module path and currently-executing-manual-mock
pointer on entry and restores both previous values on every normal
return; when the transformer or the module wrapper raises, the error
propagates without restoring them (no try/finally in the source). -/
theorem execModule_restores_on_normal_return
    (cfg : RtCfg) (fuel : Nat) (st : RtState) (rec : ModuleRec)
    (isInternal : Bool) (rec2 : ModuleRec) (st' : RtState)
    (h : execModule cfg fuel st rec isInternal = (.ok rec2, st')) :
    st'.currentlyExecutingModulePath = st.currentlyExecutingModulePath ∧
    st'.isCurrentlyExecutingManualMock = st.isCurrentlyExecutingManualMock := by
  cases fuel with
  | zero => simp [execModule] at h
  | succ n =>
    rw [execModule] at h
    split at h
    · injection h with h1 h2
      subst h2
      exact ⟨rfl, rfl⟩
    · simp only [] at h
      split at h
      · simp at h
      · split at h
        · simp at h
        · injection h with h1 h2
          subst h2
          exact ⟨rfl, rfl⟩

/-- C4 witness: a module with an empty body executes normally and both
pointers come back to their previous values. -/
theorem execModule_restores_on_normal_return_witness :
    (execModule genMockCfg 2 pointerState recA
        false).2.currentlyExecutingModulePath = "/prev.js" ∧
    (execModule genMockCfg 2 pointerState recA
        false).2.isCurrentlyExecutingManualMock = some "/prevmock.js" := by
  have e : execModule genMockCfg 2 pointerState recA false =
      (.ok recA, { pointerState with trace := ["/proj/a.js"] }) := rfl
  have h := execModule_restores_on_normal_return genMockCfg 2 pointerState recA
    false recA { pointerState with trace := ["/proj/a.js"] } e
  rw [e]
  exact h

/-- C3 counterexample: the virtual-mock check of `_shouldMock` precedes
the core-module check, so with `fs` in the virtual-mock table
`_shouldMock` returns `true` for the core module `fs` — refuting the
claim's "for all states of the explicit-mock and virtual-mock tables". -/
theorem shouldMock_core_counterexample :
    coreFsCfg.rIsCoreModule "fs" = true ∧
    (shouldMock coreFsCfg virtualFsState "/proj/a.js" "fs").1 = .ok true :=
  ⟨rfl, rfl⟩

/-- C3 (amended): for a core module `n`, `_shouldMock(from, n)` returns
`false`, provided the virtual path of `n` is not in the virtual-mock
table and the explicit-mock table does not map `n`'s normalized id to
`true` (the normalized-id cache entry for `(from, n)`, if present, being
the canonical core id — the only value the code ever stores there). -/
theorem shouldMock_core_false
    (cfg : RtCfg) (st : RtState) (fromPath n : String)
    (hCore : cfg.rIsCoreModule n = true)
    (hVirt : List.lookup (getVirtualMockPath fromPath n) st.virtualMocks = none)
    (hCache : List.lookup (fromPath ++ pathDelim ++ n) st.normalizedIDCache = none ∨
      List.lookup (fromPath ++ pathDelim ++ n) st.normalizedIDCache =
        some ("node" ++ pathDelim ++ n ++ pathDelim))
    (hExpl : List.lookup ("node" ++ pathDelim ++ n ++ pathDelim)
        st.explicitShouldMock ≠ some true) :
    (shouldMock cfg st fromPath n).1 = .ok false := by
  rcases hCache with hc | hc <;>
  cases he : List.lookup ("node" ++ pathDelim ++ n ++ pathDelim)
      st.explicitShouldMock with
  | none => simp [shouldMock, normalizeID, hVirt, hc, hCore, he]
  | some b =>
    cases b with
    | true => exact absurd he hExpl
    | false => simp [shouldMock, normalizeID, hVirt, hc, hCore, he]

/-- C3 (amended) witness: on a fresh state, `_shouldMock` rejects the
core module `fs`. -/
theorem shouldMock_core_false_witness :
    (shouldMock coreFsCfg (initialState coreFsCfg) "/proj/a.js" "fs").1 =
      .ok false :=
  shouldMock_core_false coreFsCfg (initialState coreFsCfg) "/proj/a.js" "fs"
    rfl rfl (Or.inl rfl) (by simp [initialState, coreFsCfg, genMockCfg])

/-- C9: `requireModule(from)` with no module name skips resolution
entirely: `_resolveModule(from, to)` returns `from` whenever `to` is
absent or empty (for every resolver oracle), and a successful require
returns the `exports` of the registry record keyed by `from` itself. -/
theorem requireModule_no_name_loads_from
    (cfg : RtCfg) (fuel : Nat) (st : RtState) (fromPath : String)
    (isInternal : Bool) (v : JVal) (st1 : RtState) :
    resolveModuleR cfg fromPath "" = .ok fromPath ∧
    (requireModule cfg fuel st fromPath "" isInternal = (.ok v, st1) →
      ∃ rec, List.lookup fromPath st1.moduleRegistry = some rec ∧
        rec.exports = v) := by
  refine ⟨rfl, fun h => ?_⟩
  obtain ⟨m, rec, hres, hlook, hexp⟩ :=
    requireModule_ok_inv cfg fuel st fromPath "" isInternal v st1 (by simp)
      (by simp) h
  have hres' : (Except.ok fromPath : Except JsErr String) = Except.ok m := hres
  injection hres' with hm
  subst hm
  exact ⟨rec, hlook, hexp⟩

/-- C9 witness: a single-argument require of `/a.js` loads and registers
the record keyed by `/a.js`. -/
theorem requireModule_no_name_loads_from_witness :
    resolveModuleR genMockCfg "/a.js" "" = .ok "/a.js" ∧
    (List.lookup "/a.js"
        (requireModule genMockCfg 3 (initialState genMockCfg) "/a.js" ""
          false).2.moduleRegistry).isSome = true := by
  have h := requireModule_no_name_loads_from genMockCfg 3
    (initialState genMockCfg) "/a.js" false (.obj [])
    (requireModule genMockCfg 3 (initialState genMockCfg) "/a.js" "" false).2
  refine ⟨h.1, ?_⟩
  obtain ⟨rec, hl, he⟩ := h.2 (by rfl)
  rw [hl]
  rfl

/-- C6: a second `requireModule` for the same path (with no manual mock
in play and a non-core name) returns the exact same `exports` value from
the registry, without executing any module body: the module registry and
the execution trace are unchanged by the second call. -/
theorem requireModule_cached_second_call
    (cfg : RtCfg) (fuel f2 : Nat) (st st1 : RtState) (fromPath p : String)
    (v : JVal)
    (hp : p ≠ "")
    (hMM : cfg.rGetMockModule fromPath p = none)
    (hCore : cfg.rIsCoreModule p = false)
    (h1 : requireModule cfg fuel st fromPath p false = (.ok v, st1)) :
    (requireModule cfg (f2 + 1) st1 fromPath p false).1 = .ok v ∧
    (requireModule cfg (f2 + 1) st1 fromPath p false).2.moduleRegistry =
      st1.moduleRegistry ∧
    (requireModule cfg (f2 + 1) st1 fromPath p false).2.trace = st1.trace := by
  obtain ⟨m, rec, hres, hlook, hexp⟩ :=
    requireModule_ok_inv cfg fuel st fromPath p false v st1
      (by simp [hp, hMM]) (by simp [hCore]) h1
  rw [requireModule]
  rcases hN : normalizeID cfg st1 fromPath p with ⟨resN, stN⟩
  cases resN with
  | error e =>
    have hnt := normalizeID_no_throw cfg st1 fromPath p m hres e
    rw [hN] at hnt
    exact absurd rfl hnt
  | ok id =>
    have hsc := normalizeID_state_cases cfg st1 fromPath p
    rw [hN] at hsc
    have hreg : stN.moduleRegistry = st1.moduleRegistry := by
      rcases hsc with hc | ⟨kv, hc⟩
      · have hc' : stN = st1 := hc
        rw [hc']
      · have hc' : stN =
            { st1 with normalizedIDCache := kv :: st1.normalizedIDCache } := hc
        rw [hc']
    have htr : stN.trace = st1.trace := by
      rcases hsc with hc | ⟨kv, hc⟩
      · have hc' : stN = st1 := hc
        rw [hc']
      · have hc' : stN =
            { st1 with normalizedIDCache := kv :: st1.normalizedIDCache } := hc
        rw [hc']
    simp only []
    rw [if_pos hp, hMM]
    simp only [ite_self]
    rw [if_neg (by simp [hCore] : ¬(p ≠ "" ∧ cfg.rIsCoreModule p = true))]
    rw [hres]
    simp only []
    rw [hreg, hlook]
    simp only [finalRead, hreg, hlook, hexp, htr]
    simp

/-- C6 witness: requiring `m` twice from a fresh runtime returns the same
exports both times and the second call leaves the registry and trace
untouched. -/
theorem requireModule_cached_second_call_witness :
    (requireModule genMockCfg 3
        (requireModule genMockCfg 3 (initialState genMockCfg) "/a.js" "m"
          false).2
        "/a.js" "m" false).1 = .ok (.obj []) := by
  have h := requireModule_cached_second_call genMockCfg 3 2
    (initialState genMockCfg)
    (requireModule genMockCfg 3 (initialState genMockCfg) "/a.js" "m" false).2
    "/a.js" "m" (.obj []) (by decide) rfl rfl (by rfl)
  exact h.1

/-- C1: `requireModule` installs a ModuleRecord with empty exports into
the module registry before the module body executes, so a circular
require reached during that body's execution returns the
partially-populated exports of `p` instead of infinite-looping or
raising: for every path `p` whose body assigns `a`, then circularly
requires `p` itself into `c`, then assigns `b`, the require terminates
(for every fuel margin `k`) and the inner require observed exactly
`{a: 1}` — the exports as populated so far, without `b`. -/
theorem requireModule_circular_partial_exports
    (cfg : RtCfg) (st : RtState) (p : String) (k : Nat)
    (hp : p ≠ "")
    (hGMp : cfg.rGetModule p = none)
    (hGM0 : cfg.rGetModule "" = none)
    (hMMp : cfg.rGetMockModule p p = none)
    (hMM0 : cfg.rGetMockModule p "" = none)
    (hCorep : cfg.rIsCoreModule p = false)
    (hCore0 : cfg.rIsCoreModule "" = false)
    (hRes : cfg.rResolveModule p p = .ok p)
    (hBody : cfg.bodies p = .ok
      [.setExport "a" (.num 1), .requireInto "c" p, .setExport "b" (.num 2)])
    (hJson : extnamePath p ≠ ".json") (hNodeExt : extnamePath p ≠ ".node")
    (hReg : st.moduleRegistry = []) (hVirt : st.virtualMocks = [])
    (hCache : st.normalizedIDCache = []) (hExpl : st.explicitShouldMock = [])
    (hAuto : st.shouldAutoMock = false) (hEnv : st.envGlobal = true) :
    (requireModule cfg (k + 6) st p "" false).1 =
      .ok (.obj [("a", .num 1), ("c", .obj [("a", .num 1)]), ("b", .num 2)]) := by
  have hkA : ¬(p ++ pathDelim ++ p = p ++ pathDelim ++ "") := by
    intro h
    apply hp
    have h2 := congrArg String.data h
    simp only [String.data_append] at h2
    exact String.ext (List.append_cancel_left h2)
  have hkB : ¬(p ++ pathDelim ++ p = p ++ pathDelim) := by
    intro h
    apply hp
    have h2 := congrArg String.data h
    simp only [String.data_append] at h2
    have h3 : (p.data ++ pathDelim.data) ++ p.data =
        (p.data ++ pathDelim.data) ++ [] := by simpa using h2
    exact String.ext (List.append_cancel_left h3)
  have hbA : (p ++ pathDelim ++ p == p ++ pathDelim ++ "") = false :=
    beq_eq_false_iff_ne.mpr hkA
  have hbB : (p ++ pathDelim ++ p == p ++ pathDelim) = false :=
    beq_eq_false_iff_ne.mpr hkB
  have h6 : k + 6 =
      Nat.succ (Nat.succ (Nat.succ (Nat.succ (Nat.succ (Nat.succ k))))) := rfl
  rw [h6]
  simp [requireModule, execModule, execActions, requireModuleOrMock,
    requireMock, generateMock, normalizeID, shouldMock, resolveModuleR,
    finalRead, writeThrough, writeThroughExports, jvalSet, upsertField,
    unmockTest, Except.map, List.lookup,
    hReg, hVirt, hCache, hExpl, hAuto, hEnv, hp, hGMp, hGM0, hMMp, hMM0,
    hCorep, hCore0, hRes, hBody, hJson, hNodeExt, hkA, hkB, hbA, hbB]

/-- C1 witness: the circular require terminates and sees the partial
exports of `/proj/a.js`. -/
theorem requireModule_circular_partial_exports_witness :
    (requireModule circCfg 6 (initialState circCfg) "/proj/a.js" "" false).1 =
      .ok (.obj [("a", .num 1), ("c", .obj [("a", .num 1)]), ("b", .num 2)]) := by
  have h := requireModule_circular_partial_exports circCfg
    (initialState circCfg) "/proj/a.js" 0 (by decide) rfl rfl rfl rfl rfl rfl
    rfl rfl (by decide) (by decide) rfl rfl rfl rfl rfl rfl
  exact h

/-- C10: constructing a `Runtime` executes modules: the constructor first
marks every setup file whose path contains a `node_modules` segment as
transitively unmocked (`transitiveShouldMock[id] = false`), then, after
an initial `resetModuleRegistry`, calls `requireModule` on each setup
file in list order (witnessed by the execution trace). -/
theorem runtimeCtor_setup_files
    (cfg : RtCfg) (k : Nat)
    (hCore0 : cfg.rIsCoreModule "" = false)
    (hGM0 : cfg.rGetModule "" = none)
    (hMM0 : ∀ f, cfg.rGetMockModule f "" = none)
    (hBody : ∀ f ∈ cfg.setupFiles, cfg.bodies f = .ok [])
    (hExt : ∀ f ∈ cfg.setupFiles,
      extnamePath f ≠ ".json" ∧ extnamePath f ≠ ".node")
    (hEnv : cfg.envGlobalPresent = true)
    (hND : cfg.setupFiles.Nodup) :
    ∃ st2, runtimeCtor cfg (k + 3) = .ok st2 ∧
      st2.trace = cfg.setupFiles ∧
      (∀ f ∈ cfg.setupFiles, f ≠ "" ∧ strIncludes f NODE_MODULES = true →
        List.lookup (idOfSetup f) st2.transitiveShouldMock = some false) := by
  obtain ⟨st1, h1, hr1, ht1, he1, hc1, hp1, hm1⟩ := foldUnmock_ok cfg hCore0
    hGM0 cfg.setupFiles (initialState cfg) (fun f _ => hMM0 f)
    (fun g => Or.inl rfl)
  obtain ⟨st2, h2, htr2, htm2⟩ := requireSetupFiles_ok cfg k hCore0 hGM0
    cfg.setupFiles (resetModuleRegistry st1)
    (fun f hf => ⟨hMM0 f, hBody f hf, (hExt f hf).1, (hExt f hf).2, rfl⟩)
    hc1
    hND
    (by
      show st1.envGlobal = true
      rw [he1]
      exact hEnv)
  refine ⟨st2, ?_, ?_, ?_⟩
  · rw [runtimeCtor, h1]
    exact h2
  · rw [htr2]
    have h0 : st1.trace = [] := ht1
    rw [show (resetModuleRegistry st1).trace = st1.trace from rfl, h0]
    simp
  · intro f hf hcond
    rw [htm2]
    exact hm1 f hf hcond

/-- C10 witness: a runtime constructed with two setup files (the first
under `node_modules`) executes them in order and carries the transitive
unmock mark for the first. -/
theorem runtimeCtor_setup_files_witness :
    (runtimeCtor setupCfg 3).map RtState.trace =
      .ok ["/p/node_modules/s1.js", "/p/s2.js"] ∧
    (runtimeCtor setupCfg 3).map
        (fun s => List.lookup (idOfSetup "/p/node_modules/s1.js")
          s.transitiveShouldMock) =
      .ok (some false) := by
  obtain ⟨st2, he, htr, hmarks⟩ := runtimeCtor_setup_files setupCfg 0 rfl rfl
    (fun f => rfl) (fun f _ => rfl) (by decide) rfl (by decide)
  have hm := hmarks "/p/node_modules/s1.js" (by decide) ⟨by decide, by decide⟩
  rw [he]
  constructor
  · simp [Except.map, htr, setupCfg, genMockCfg]
  · simp [Except.map, hm]

end JestModel
